import Mathlib

/-
Verification of the live777 supervisor and its STUN client
(kvmd/apps/live777/stun.py and kvmd/apps/live777/runner.py).

The Python code is shallowly embedded: pure fragments become Lean
functions; the network and the event loop become explicit oracles
(a function giving the response to the n-th request) and explicit
state passing; Python exceptions become Except values; bytes become
List Nat (each element a byte value).
-/

deriving instance DecidableEq for Except

namespace KvmdLive777

/-- NAT types, embedded from the StunNatType enum in stun.py. -/
inductive StunNatType where
  | ERROR
  | BLOCKED
  | OPEN_INTERNET
  | SYMMETRIC_UDP_FW
  | FULL_CONE_NAT
  | RESTRICTED_NAT
  | RESTRICTED_PORT_NAT
  | SYMMETRIC_NAT
  | CHANGED_ADDR_ERROR
deriving DecidableEq, Repr

/-- Embedded _StunAddress: an ip (textual) and a port. -/
structure StunAddress where
  ip : String
  port : Nat
deriving DecidableEq, Repr

/-- Embedded _StunResponse: ok flag plus three optional parsed addresses. -/
structure StunResponse where
  ok : Bool
  ext : Option StunAddress := none
  src : Option StunAddress := none
  changed : Option StunAddress := none
deriving DecidableEq, Repr

/-- Big-endian pack of a 16-bit value (struct.pack of a H field). -/
def pack16 (n : Nat) : List Nat :=
  [n / 256 % 256, n % 256]

/-- Big-endian pack of a 32-bit value (struct.pack of an I field). -/
def pack32 (n : Nat) : List Nat :=
  [n / 16777216 % 256, n / 65536 % 256, n / 256 % 256, n % 256]

/-- One UDP request as sent by Stun.__make_request: destination ip, destination
port and the TLV payload handed to the request builder. -/
structure SentReq where
  dest_ip : String
  dest_port : Nat
  payload : List Nat
deriving DecidableEq, Repr

/-- Guard from Stun.__get_nat_type line 149 of stun.py:
first.ext is not None and first.ext.ip == src_ip. -/
def addr_ip_eq (a : Option StunAddress) (ip : String) : Bool :=
  match a with
  | some e => e.ip == ip
  | none => false

/-- Embedded Stun.__get_nat_type. The network is an oracle giving the
parsed response to the n-th __make_request call (n = 0,1,2,3); the
function returns the classification (or the raised error) together with
the trace of requests sent. A string address sent to __make_request is
paired with the primary configured port. -/
def get_nat_type (stun_ip : String) (port : Nat) (src_ip : String)
    (net : Nat → StunResponse) : Except String (StunNatType × StunResponse) × List SentReq :=
  let r0 : SentReq := ⟨stun_ip, port, []⟩
  let first := net 0
  if first.ok = false then
    (.ok (.BLOCKED, first), [r0])
  else
    let r1 : SentReq := ⟨stun_ip, port, pack16 0x0003 ++ pack16 0x0004 ++ pack32 0x00000006⟩
    let resp := net 1
    if addr_ip_eq first.ext src_ip then
      if resp.ok then (.ok (.OPEN_INTERNET, resp), [r0, r1])
      else (.ok (.SYMMETRIC_UDP_FW, resp), [r0, r1])
    else if resp.ok then
      (.ok (.FULL_CONE_NAT, resp), [r0, r1])
    else
      match first.changed with
      | none => (.error "Changed addr is None", [r0, r1])
      | some ch =>
        let r2 : SentReq := ⟨ch.ip, ch.port, []⟩
        let resp2 := net 2
        if resp2.ok = false then
          (.ok (.CHANGED_ADDR_ERROR, resp2), [r0, r1, r2])
        else if resp2.ext = first.ext then
          let r3 : SentReq := ⟨ch.ip, port, pack16 0x0003 ++ pack16 0x0004 ++ pack32 0x00000002⟩
          let resp3 := net 3
          if resp3.ok then (.ok (.RESTRICTED_NAT, resp3), [r0, r1, r2, r3])
          else (.ok (.RESTRICTED_PORT_NAT, resp3), [r0, r1, r2, r3])
        else
          (.ok (.SYMMETRIC_NAT, resp2), [r0, r1, r2])

/-- Transliteration of the step-by-step dialogue as the specification words
it: first an empty Binding Request to the primary address (Blocked on
failure); then a Change-Request with flags 0x00000006 to the same primary
address; ext.ip = src_ip gives OpenInternet or SymmetricUdpFirewall by the
Change-Request outcome; a differing ext.ip gives FullConeNat on success,
Error when the changed attribute is missing, ChangedAddrError when the
plain Binding Request to the changed address fails, then RestrictedNat or
RestrictedPortNat by the outcome of a Change-Port request (flags
0x00000002) to changed.ip with the primary port when ext is unchanged, and
SymmetricNat when ext differs. -/
def nat_classification_spec (stun_ip : String) (port : Nat) (src_ip : String)
    (net : Nat → StunResponse) : Except String (StunNatType × StunResponse) × List SentReq :=
  let firstReq : SentReq := ⟨stun_ip, port, []⟩
  let first := net 0
  if first.ok = false then
    (.ok (.BLOCKED, first), [firstReq])
  else
    let changeReq : SentReq := ⟨stun_ip, port, [0x00, 0x03, 0x00, 0x04, 0x00, 0x00, 0x00, 0x06]⟩
    let crResp := net 1
    if (first.ext.map StunAddress.ip).any (fun i => i == src_ip) then
      if crResp.ok then (.ok (.OPEN_INTERNET, crResp), [firstReq, changeReq])
      else (.ok (.SYMMETRIC_UDP_FW, crResp), [firstReq, changeReq])
    else if crResp.ok then
      (.ok (.FULL_CONE_NAT, crResp), [firstReq, changeReq])
    else
      match first.changed with
      | none => (.error "Changed addr is None", [firstReq, changeReq])
      | some ca =>
        let plainReq : SentReq := ⟨ca.ip, ca.port, []⟩
        let plainResp := net 2
        if plainResp.ok = false then
          (.ok (.CHANGED_ADDR_ERROR, plainResp), [firstReq, changeReq, plainReq])
        else if plainResp.ext = first.ext then
          let cpReq : SentReq := ⟨ca.ip, port, [0x00, 0x03, 0x00, 0x04, 0x00, 0x00, 0x00, 0x02]⟩
          let cpResp := net 3
          if cpResp.ok then (.ok (.RESTRICTED_NAT, cpResp), [firstReq, changeReq, plainReq, cpReq])
          else (.ok (.RESTRICTED_PORT_NAT, cpResp), [firstReq, changeReq, plainReq, cpReq])
        else
          (.ok (.SYMMETRIC_NAT, plainResp), [firstReq, changeReq, plainReq])

/-- Magic cookie bytes of classic STUN. -/
def magic_cookie : List Nat := [0x21, 0x12, 0xA4, 0x42]

/-- Transaction id generated once per logical request by Stun.__make_request
line 178: the four magic-cookie bytes followed by 12 random bytes. -/
def make_trans_id (rand12 : List Nat) : List Nat := magic_cookie ++ rand12

/-- Embedded datagram builder of Stun.__inner_make_request line 211:
struct.pack of the three 16-bit fields 0x0001, len(req) and 0x2112, then the
transaction id, then the payload. -/
def inner_request_msg (trans_id req : List Nat) : List Nat :=
  pack16 0x0001 ++ pack16 req.length ++ pack16 0x2112 ++ trans_id ++ req

/-- Embedded response validation of Stun.__inner_make_request lines 214-221:
a datagram shorter than 20 bytes, a type other than 0x0101, or bytes 4..20
differing from the transaction id each fail the attempt; otherwise the bytes
after offset 20 are returned as the attribute body. -/
def validate_response (trans_id data : List Nat) : List Nat × String :=
  if data.length < 20 then ([], "Response is too short")
  else if data.take 2 ≠ [0x01, 0x01] then ([], "Invalid response type")
  else if (data.drop 4).take 16 ≠ trans_id then ([], "Transaction ID mismatch")
  else (data.drop 20, "")

/-- Python list repetition l * n. -/
def list_repeat (l : List Nat) : Nat → List Nat
  | 0 => []
  | n + 1 => l ++ list_repeat l n

/-- Embedded Stun.__trans_xor: with an empty trans_id the data is returned
unchanged; otherwise the data is XOR-ed bytewise against the concatenation
of the magic cookie and the trans_id, repeated enough times to cover it. -/
def trans_xor (data trans_id : List Nat) : List Nat :=
  if trans_id = [] then data
  else
    let m := magic_cookie ++ trans_id
    let mask := list_repeat m (data.length / m.length + 1)
    List.zipWith (fun a b => a ^^^ b) data (mask.take data.length)

/-- Parsed IP of an address attribute, kept as the big-endian integer the
source feeds to the textual renderer; no claim depends on the rendering. -/
inductive IpAddr where
  | v4 (n : Nat)
  | v6 (n : Nat)
deriving DecidableEq, Repr

/-- Result of Stun.__parse_address. -/
structure ParsedAddress where
  ip : IpAddr
  port : Nat
deriving DecidableEq, Repr

/-- Big-endian integer of a byte list (int.from_bytes with big order). -/
def be_nat (l : List Nat) : Nat := l.foldl (fun acc b => acc * 256 + b) 0

/-- Embedded Stun.__parse_address: length and family checks, the port from
the XOR-ed bytes 2..4, the address integer from the XOR-ed bytes 4..8 (IPv4)
or 4..20 (IPv6). -/
def parse_address (data trans_id : List Nat) : Except String ParsedAddress :=
  if data.length < 4 then .error "Address: data is too short"
  else if data.getD 1 0 ≠ 0x01 ∧ data.getD 1 0 ≠ 0x02 then
    .error ("Invalid address family: " ++ toString (data.getD 1 0))
  else
    let port := be_nat (trans_xor ((data.drop 2).take 2) trans_id)
    if data.getD 1 0 = 0x01 then
      if data.length < 8 then .error "IPv4 address: data is too short"
      else .ok ⟨.v4 (be_nat (trans_xor ((data.drop 4).take 4) trans_id)), port⟩
    else
      if data.length < 20 then .error "IPv6 address: data is too short"
      else .ok ⟨.v6 (be_nat (trans_xor ((data.drop 4).take 16) trans_id)), port⟩

/-- XOR-MAPPED-ADDRESS decoding as claim C6 words it: identical checks, but
the port is XOR-ed with the first two bytes of the magic cookie and the
address bytes with the concatenation of the 4-byte magic cookie and the
12-byte transaction id (the random part), repeated as needed. -/
def xma_decode_claim (data rand12 : List Nat) : Except String ParsedAddress :=
  if data.length < 4 then .error "Address: data is too short"
  else if data.getD 1 0 ≠ 0x01 ∧ data.getD 1 0 ≠ 0x02 then
    .error ("Invalid address family: " ++ toString (data.getD 1 0))
  else
    let mask := magic_cookie ++ rand12
    let full_mask := list_repeat mask (16 / mask.length + 1)
    let port := be_nat (List.zipWith (fun a b => a ^^^ b) ((data.drop 2).take 2) [0x21, 0x12])
    if data.getD 1 0 = 0x01 then
      if data.length < 8 then .error "IPv4 address: data is too short"
      else .ok ⟨.v4 (be_nat (List.zipWith (fun a b => a ^^^ b) ((data.drop 4).take 4) full_mask)), port⟩
    else
      if data.length < 20 then .error "IPv6 address: data is too short"
      else .ok ⟨.v6 (be_nat (List.zipWith (fun a b => a ^^^ b) ((data.drop 4).take 16) full_mask)), port⟩

/-- Netcfg record of runner.py (structurally equal to StunInfo). -/
structure Netcfg where
  nat_type : StunNatType := .ERROR
  src_ip : String := ""
  ext_ip : String := ""
  stun_host : String := ""
  stun_ip : String := ""
  stun_port : Nat := 0
deriving DecidableEq, Repr

/-- Lifecycle actions taken by one iteration of Live777Runner.__run. -/
inductive RunAction where
  | stop
  | start (cfg : Netcfg)
deriving DecidableEq, Repr

/-- Decision part of one iteration of Live777Runner.__run (lines 105-113 of
runner.py): given the previously remembered Netcfg (None initially) and the
freshly probed one, the emitted stop/start actions and the new remembered
value. -/
def run_iteration (prev : Option Netcfg) (b : Netcfg) : List RunAction × Option Netcfg :=
  if some b ≠ prev then
    (if b.src_ip ≠ "" then [.stop, .start b] else [.stop], some b)
  else
    ([], prev)

/-- StunInfo record of stun.py. -/
structure StunInfo where
  nat_type : StunNatType
  src_ip : String
  ext_ip : String
  stun_host : String
  stun_ip : String
  stun_port : Nat
deriving DecidableEq, Repr

/-- Constructor arguments of Stun that get_info reads. -/
structure StunConfig where
  host : String
  port : Nat
deriving DecidableEq, Repr

/-- Address family of a getaddrinfo entry. -/
inductive AddrFamily where
  | inet
  | inet6
deriving DecidableEq, Repr

/-- Environment of one get_info call: the outcome of the retried getaddrinfo
on the source address (its first entry's family), the outcome of the retried
getaddrinfo on the STUN host (family and textual ip of each candidate), and
the outcome of the socket block and classification dialogue as a function of
the stun ip in use (its error case covers socket and bind failures and the
RuntimeError raised inside __get_nat_type alike). -/
structure InfoEnv where
  resolve_src : Except String AddrFamily
  resolve_stun : Except String (List (AddrFamily × String))
  dialogue : String → Except String (StunNatType × StunResponse)

/-- Value of the expression resp.ext.ip if resp.ext is not None else the
empty string (line 115 of stun.py). -/
def opt_ext_ip (o : Option StunAddress) : String :=
  match o with
  | some e => e.ip
  | none => ""

/-- Sticky server ip choice of Stun.get_info lines 107-108: the remembered
stun_ip is replaced by the first family-matching candidate exactly when it
is empty or absent from the candidate list. -/
def sticky_ip (stun_ip0 fip : String) (rest : List String) : String :=
  if stun_ip0 = "" ∨ stun_ip0 ∉ fip :: rest then fip else stun_ip0

/-- Body of Stun.get_info as one state thread: the nat_type and ext_ip it
computed (their defaults on the paths that raise into the except clause),
the sticky stun_ip after the call, and whether some stage raised. The
sticky ip is replaced by the first family-matching candidate exactly when
it is empty or absent from the candidate list, and a later failure of the
dialogue keeps the already-updated sticky ip, as in the source. -/
def get_info_core (env : InfoEnv) (stun_ip0 : String) :
    StunNatType × String × String × Bool :=
  match env.resolve_src with
  | .error _ => (.ERROR, "", stun_ip0, true)
  | .ok src_fam =>
    match env.resolve_stun with
    | .error _ => (.ERROR, "", stun_ip0, true)
    | .ok cands =>
      match (cands.filter (fun c => c.1 == src_fam)).map (fun c => c.2) with
      | [] => (.ERROR, "", stun_ip0, true)
      | first_ip :: rest =>
        match env.dialogue (sticky_ip stun_ip0 first_ip rest) with
        | .error _ => (.ERROR, "", sticky_ip stun_ip0 first_ip rest, true)
        | .ok r => (r.1, opt_ext_ip r.2.ext, sticky_ip stun_ip0 first_ip rest, false)

/-- Failure of some stage of one get_info call: the raised flag of the state
thread. -/
def get_info_failed (env : InfoEnv) (stun_ip0 : String) : Bool :=
  (get_info_core env stun_ip0).2.2.2

/-- Embedded Stun.get_info (lines 94-128 of stun.py): runs the body and
always returns a StunInfo whose stun_host and stun_port are the configured
values and whose src_ip is the argument, together with the new sticky
stun_ip. -/
def get_info (cfg : StunConfig) (env : InfoEnv) (stun_ip0 : String)
    (src_ip : String) : StunInfo × String :=
  let res := get_info_core env stun_ip0
  (⟨res.1, src_ip, res.2.1, cfg.host, res.2.2.1, cfg.port⟩, res.2.2.1)

/-- Embedded Live777Runner.__get_netcfg (lines 117-120 of runner.py): the
discovery result (possibly empty) is replaced by the wildcard when falsy,
the STUN probe runs on it, and every StunInfo field is lifted into Netcfg. -/
def get_netcfg (cfg : StunConfig) (env : InfoEnv) (stun_ip0 : String)
    (discovered : String) : Netcfg :=
  let src_ip := if discovered = "" then "0.0.0.0" else discovered
  let info := (get_info cfg env stun_ip0 src_ip).1
  ⟨info.nat_type, info.src_ip, info.ext_ip, info.stun_host, info.stun_ip, info.stun_port⟩

/-- Supervisor handles: the supervisory task and the child process, each at
most one, identified abstractly by a Nat. -/
structure RunnerState where
  task : Option Nat
  proc : Option Nat
deriving DecidableEq, Repr

/-- Observable actions of the stop path. -/
inductive StopAct where
  | cancel_task
  | await_task
  | kill_proc
deriving DecidableEq, Repr

/-- Embedded Live777Runner.__kill_live777_proc: kill the child if one is
recorded, then clear the process handle. -/
def kill_live777_proc (s : RunnerState) : RunnerState × List StopAct :=
  (⟨s.task, none⟩, if s.proc.isSome then [.kill_proc] else [])

/-- Embedded Live777Runner.__stop_live777: cancel and await the supervisory
task when one exists, then unconditionally run the child kill, then clear
the task handle. -/
def stop_live777 (s : RunnerState) : RunnerState × List StopAct :=
  let cancelActs := if s.task.isSome then [StopAct.cancel_task, StopAct.await_task] else []
  let killed := kill_live777_proc s
  (⟨none, killed.1.proc⟩, cancelActs ++ killed.2)

/-- Embedded Live777Runner.__start_live777: asserts that no supervisory task
exists (None on assertion failure) and records the new task handle. -/
def start_live777 (s : RunnerState) (t : Nat) : Option RunnerState :=
  if s.task.isSome then none else some ⟨some t, s.proc⟩

/-- C1: for every probe the NAT classification of Stun.__get_nat_type follows
the step-by-step dialogue of the specification, both in the result (or the
raised Error) and in the trace of requests sent (destinations and payloads,
the Change-Request flags 0x00000006 and 0x00000002 included). -/
theorem get_nat_type_follows_dialogue (stun_ip : String) (port : Nat) (src_ip : String)
    (net : Nat → StunResponse) :
    get_nat_type stun_ip port src_ip net = nat_classification_spec stun_ip port src_ip net := by
  unfold get_nat_type nat_classification_spec
  cases hok : (net 0).ok <;>
    cases hext : (net 0).ext <;>
      simp [addr_ip_eq, hok, hext, pack16, pack32]

/-- C4: one supervisor iteration stops and restarts the child iff the fresh
Netcfg differs from the remembered one and has a non-empty src_ip; stops
without replacement iff it differs and src_ip is empty; does nothing iff it
is unchanged. -/
theorem run_iteration_cases (prev : Option Netcfg) (b : Netcfg) :
    ((run_iteration prev b).1 = [.stop, .start b] ↔ (some b ≠ prev ∧ b.src_ip ≠ "")) ∧
    ((run_iteration prev b).1 = [.stop] ↔ (some b ≠ prev ∧ b.src_ip = "")) ∧
    ((run_iteration prev b).1 = [] ↔ some b = prev) := by
  unfold run_iteration
  by_cases h : some b = prev <;> by_cases hs : b.src_ip = "" <;> simp [h, hs]

/-- C9: stop clears both the task handle and the process handle; it cancels
and awaits the supervisory task exactly when one exists, and then kills the
residual child exactly when one exists, even with no task; start asserts
that no supervisory task exists. Option-typed handles record at most one
task and one process. -/
theorem stop_live777_clears_handles (s : RunnerState) :
    (stop_live777 s).1.task = none ∧ (stop_live777 s).1.proc = none ∧
    (stop_live777 s).2 =
      (if s.task.isSome then [StopAct.cancel_task, StopAct.await_task] else []) ++
        (if s.proc.isSome then [StopAct.kill_proc] else []) ∧
    (s.task = none → (stop_live777 s).2 = (if s.proc.isSome then [StopAct.kill_proc] else [])) ∧
    (∀ t, (start_live777 s t).isSome ↔ s.task = none) := by
  unfold stop_live777 kill_live777_proc start_live777
  cases ht : s.task <;> cases hp : s.proc <;> simp

/-- Closed instance of the stop/start theorem at a state holding no task and
one child process. -/
theorem stop_live777_clears_handles_witness :
    (stop_live777 ⟨none, some 7⟩).2 = [StopAct.kill_proc] := by
  have h := stop_live777_clears_handles ⟨none, some 7⟩
  simpa using h.2.2.2.1 rfl

/-- C2: evaluation of the request builder at a concrete transaction id and
an empty payload. The bytes before the payload number 22, not 20; bytes 4..8
hold 0x21 0x12 0x21 0x12 rather than the magic cookie; the transaction id
sits at offsets 6..22; and the bytes a server echoing request offsets 4..20
would send back differ from the transaction id that the response validator
of the same class requires at reply offsets 4..20. -/
theorem inner_request_msg_header_bug :
    (inner_request_msg (make_trans_id [0, 0, 0, 0, 0, 0, 0, 0, 0, 0, 0, 0]) []).length = 22 ∧
    ((inner_request_msg (make_trans_id [0, 0, 0, 0, 0, 0, 0, 0, 0, 0, 0, 0]) []).drop 4).take 4 =
      [0x21, 0x12, 0x21, 0x12] ∧
    ((inner_request_msg (make_trans_id [0, 0, 0, 0, 0, 0, 0, 0, 0, 0, 0, 0]) []).drop 4).take 4 ≠
      magic_cookie ∧
    ((inner_request_msg (make_trans_id [0, 0, 0, 0, 0, 0, 0, 0, 0, 0, 0, 0]) []).drop 6).take 16 =
      make_trans_id [0, 0, 0, 0, 0, 0, 0, 0, 0, 0, 0, 0] ∧
    ((inner_request_msg (make_trans_id [0, 0, 0, 0, 0, 0, 0, 0, 0, 0, 0, 0]) []).drop 4).take 16 ≠
      make_trans_id [0, 0, 0, 0, 0, 0, 0, 0, 0, 0, 0, 0] := by
  decide

/-- C6 as stated fails on IPv6: at a concrete XOR-MAPPED-ADDRESS body and
transaction id, the source decode differs from the claim's decode, because
the source's XOR mask is the magic cookie followed by the full 16-byte
transaction-id field rather than by the 12 random bytes alone. -/
theorem parse_address_xor_counterexample :
    parse_address ([0x00, 0x02, 0x00, 0x00] ++ List.replicate 16 0)
        (make_trans_id [1, 2, 3, 4, 5, 6, 7, 8, 9, 10, 11, 12]) ≠
      xma_decode_claim ([0x00, 0x02, 0x00, 0x00] ++ List.replicate 16 0)
        [1, 2, 3, 4, 5, 6, 7, 8, 9, 10, 11, 12] := by
  decide

/-- C6 amended: the XOR-MAPPED-ADDRESS port is XOR-ed with the first two
bytes of the magic cookie; the address bytes are XOR-ed with the
concatenation of the magic cookie and the 16-byte transaction-id field
(itself the magic cookie plus 12 random bytes), repeated as needed - which
for IPv4 coincides with the magic cookie alone, and for IPv6 is the magic
cookie twice followed by the first 8 random bytes; the non-XOR attributes
are decoded with no XOR applied. -/
theorem parse_address_xor_amended
    (p0 p1 b0 b1 b2 b3 b4 b5 b6 b7 b8 b9 b10 b11 b12 b13 b14 b15
      r0 r1 r2 r3 r4 r5 r6 r7 r8 r9 r10 r11 : Nat) :
    parse_address [0, 2, p0, p1, b0, b1, b2, b3, b4, b5, b6, b7, b8, b9, b10, b11, b12, b13, b14, b15]
        (make_trans_id [r0, r1, r2, r3, r4, r5, r6, r7, r8, r9, r10, r11]) =
      .ok ⟨.v6 (be_nat [b0 ^^^ 0x21, b1 ^^^ 0x12, b2 ^^^ 0xA4, b3 ^^^ 0x42,
                        b4 ^^^ 0x21, b5 ^^^ 0x12, b6 ^^^ 0xA4, b7 ^^^ 0x42,
                        b8 ^^^ r0, b9 ^^^ r1, b10 ^^^ r2, b11 ^^^ r3,
                        b12 ^^^ r4, b13 ^^^ r5, b14 ^^^ r6, b15 ^^^ r7]),
            be_nat [p0 ^^^ 0x21, p1 ^^^ 0x12]⟩ ∧
    parse_address [0, 1, p0, p1, b0, b1, b2, b3]
        (make_trans_id [r0, r1, r2, r3, r4, r5, r6, r7, r8, r9, r10, r11]) =
      .ok ⟨.v4 (be_nat [b0 ^^^ 0x21, b1 ^^^ 0x12, b2 ^^^ 0xA4, b3 ^^^ 0x42]),
            be_nat [p0 ^^^ 0x21, p1 ^^^ 0x12]⟩ ∧
    parse_address [0, 2, p0, p1, b0, b1, b2, b3, b4, b5, b6, b7, b8, b9, b10, b11, b12, b13, b14, b15]
        [] =
      .ok ⟨.v6 (be_nat [b0, b1, b2, b3, b4, b5, b6, b7, b8, b9, b10, b11, b12, b13, b14, b15]),
            be_nat [p0, p1]⟩ ∧
    parse_address [0, 1, p0, p1, b0, b1, b2, b3] [] =
      .ok ⟨.v4 (be_nat [b0, b1, b2, b3]), be_nat [p0, p1]⟩ := by
  refine ⟨rfl, rfl, rfl, rfl⟩

/-- Concrete probe environment in which the very first stage fails. -/
def failing_env : InfoEnv := ⟨.error "gai", .ok [], fun _ => .error "sock"⟩

/-- C3: get_info is a total function of its environment (never raises); the
returned stun_host and stun_port always equal the configured values, the
returned src_ip echoes the argument, and on any internal failure the result
carries nat_type Error and an empty ext_ip. -/
theorem get_info_never_raises (cfg : StunConfig) (env : InfoEnv)
    (stun_ip0 src_ip : String) :
    (get_info cfg env stun_ip0 src_ip).1.stun_host = cfg.host ∧
    (get_info cfg env stun_ip0 src_ip).1.stun_port = cfg.port ∧
    (get_info cfg env stun_ip0 src_ip).1.src_ip = src_ip ∧
    (get_info_failed env stun_ip0 = true →
      (get_info cfg env stun_ip0 src_ip).1.nat_type = .ERROR ∧
      (get_info cfg env stun_ip0 src_ip).1.ext_ip = "") := by
  refine ⟨rfl, rfl, rfl, ?_⟩
  show (get_info_core env stun_ip0).2.2.2 = true →
    (get_info_core env stun_ip0).1 = .ERROR ∧ (get_info_core env stun_ip0).2.1 = ""
  intro h
  unfold get_info_core at h ⊢
  split at h
  · exact ⟨rfl, rfl⟩
  · split at h
    · exact ⟨rfl, rfl⟩
    · split at h
      · exact ⟨rfl, rfl⟩
      · rename_i fip rest heqm
        cases hd : env.dialogue (sticky_ip stun_ip0 fip rest) with
        | error e => exact ⟨rfl, rfl⟩
        | ok r =>
          rw [hd] at h
          exact absurd h (by simp)

/-- Closed instance of the get_info theorem at a concrete failing
environment, every hypothesis discharged. -/
theorem get_info_never_raises_witness :
    get_info_failed failing_env "" = true ∧
    (get_info ⟨"stun.example", 3478⟩ failing_env "" "1.2.3.4").1.nat_type = .ERROR ∧
    (get_info ⟨"stun.example", 3478⟩ failing_env "" "1.2.3.4").1.ext_ip = "" ∧
    (get_info ⟨"stun.example", 3478⟩ failing_env "" "1.2.3.4").1.stun_host = "stun.example" ∧
    (get_info ⟨"stun.example", 3478⟩ failing_env "" "1.2.3.4").1.src_ip = "1.2.3.4" := by
  have h := get_info_never_raises ⟨"stun.example", 3478⟩ failing_env "" "1.2.3.4"
  have hf : get_info_failed failing_env "" = true := by decide
  exact ⟨hf, (h.2.2.2 hf).1, (h.2.2.2 hf).2, h.1, h.2.2.1⟩

/-- C5 as stated fails: at a concrete environment in which discovery returns
the empty string (and every probe stage fails), the probed Netcfg carries
src_ip 0.0.0.0, not the empty string, and the supervisor iteration on the
changed Netcfg stops and starts rather than stopping without replacement. -/
theorem netcfg_empty_src_counterexample :
    (get_netcfg ⟨"stun.example", 3478⟩ failing_env "" "").src_ip = "0.0.0.0" ∧
    (get_netcfg ⟨"stun.example", 3478⟩ failing_env "" "").src_ip ≠ "" ∧
    (run_iteration none (get_netcfg ⟨"stun.example", 3478⟩ failing_env "" "")).1 ≠
      [RunAction.stop] ∧
    (run_iteration none (get_netcfg ⟨"stun.example", 3478⟩ failing_env "" "")).1 =
      [RunAction.stop, RunAction.start (get_netcfg ⟨"stun.example", 3478⟩ failing_env "" "")] := by
  refine ⟨rfl, by decide, by decide, by decide⟩

/-- C5 amended: when local-address discovery fails and returns the empty
string, the supervisor substitutes the wildcard, so the Netcfg produced by
the probe has src_ip 0.0.0.0 and never the empty string; on a changed
Netcfg the supervisor therefore stops the child and starts a replacement,
and the stop-without-replacement branch is unreachable from a probed
Netcfg. -/
theorem netcfg_empty_src_amended (cfg : StunConfig) (env : InfoEnv)
    (stun_ip0 discovered : String) (prev : Option Netcfg)
    (hd : discovered = "") :
    (get_netcfg cfg env stun_ip0 discovered).src_ip = "0.0.0.0" ∧
    (get_netcfg cfg env stun_ip0 discovered).src_ip ≠ "" ∧
    (some (get_netcfg cfg env stun_ip0 discovered) ≠ prev →
      (run_iteration prev (get_netcfg cfg env stun_ip0 discovered)).1 =
        [RunAction.stop, RunAction.start (get_netcfg cfg env stun_ip0 discovered)]) := by
  subst hd
  have h1 : (get_netcfg cfg env stun_ip0 "").src_ip = "0.0.0.0" := rfl
  refine ⟨h1, by rw [h1]; decide, ?_⟩
  intro hne
  simp [run_iteration, hne, h1]

/-- Closed instance of the amended C5 theorem at a concrete failing
environment, every hypothesis discharged. -/
theorem netcfg_empty_src_amended_witness :
    (get_netcfg ⟨"s", 1⟩ failing_env "" "").src_ip = "0.0.0.0" ∧
    (run_iteration none (get_netcfg ⟨"s", 1⟩ failing_env "" "")).1 =
      [RunAction.stop, RunAction.start (get_netcfg ⟨"s", 1⟩ failing_env "" "")] := by
  have h := netcfg_empty_src_amended ⟨"s", 1⟩ failing_env "" "" none rfl
  exact ⟨h.1, h.2.2 (by decide)⟩

/-- Retry loop of Stun.__retried_getaddrinfo_udp (lines 130-139 of stun.py),
step-indexed: the oracle gives the outcome of the k-th getaddrinfo attempt;
the counter r is decremented after each failure and the last error is
re-raised when the counter is then exactly zero; none means the loop is
still running after fuel iterations. -/
def gai_run {α : Type} (oracle : Nat → Except String α) : Nat → Int → Nat → Option (Except String α)
  | _, _, 0 => none
  | k, r, fuel + 1 =>
    match oracle k with
    | .ok v => some (.ok v)
    | .error e => if r - 1 = 0 then some (.error e) else gai_run oracle (k + 1) (r - 1) fuel

/-- First success among attempts k..k+n-1, else the failure of the last of
them. -/
def first_success_or_last {α : Type} (oracle : Nat → Except String α) (k : Nat) :
    Nat → Except String α
  | 0 => oracle k
  | 1 => oracle k
  | n + 2 =>
    match oracle k with
    | .ok v => .ok v
    | .error _ => first_success_or_last oracle (k + 1) (n + 1)

theorem gai_run_eq {α : Type} (oracle : Nat → Except String α) :
    ∀ (n k fuel : Nat), 1 ≤ n → n ≤ fuel →
      gai_run oracle k (n : Int) fuel = some (first_success_or_last oracle k n) := by
  intro n
  induction n with
  | zero => intro k fuel h1 _; omega
  | succ m ih =>
    intro k fuel h1 hf
    obtain ⟨fuel', rfl⟩ : ∃ f, fuel = f + 1 := ⟨fuel - 1, by omega⟩
    cases m with
    | zero =>
      unfold gai_run
      cases ho : oracle k with
      | ok v => simp [first_success_or_last, ho]
      | error e => simp [first_success_or_last, ho]
    | succ m' =>
      unfold gai_run
      cases ho : oracle k with
      | ok v => simp [first_success_or_last, ho]
      | error e =>
        dsimp only
        have hne : ¬ (((m' + 1 + 1 : Nat) : Int) - 1 = 0) := by omega
        rw [if_neg hne]
        have h2 : ((m' + 1 + 1 : Nat) : Int) - 1 = ((m' + 1 : Nat) : Int) := by push_cast; ring
        rw [h2, ih (k + 1) fuel' (by omega) (by omega)]
        simp [first_success_or_last, ho]

theorem gai_run_diverges {α : Type} (oracle : Nat → Except String α)
    (hfail : ∀ i, ∃ e, oracle i = .error e) :
    ∀ (fuel k : Nat) (r : Int), r ≤ 0 → gai_run oracle k r fuel = none := by
  intro fuel
  induction fuel with
  | zero => intro k r _; rfl
  | succ f ih =>
    intro k r hr
    obtain ⟨e, he⟩ := hfail k
    unfold gai_run
    rw [he]
    dsimp only
    rw [if_neg (show ¬ (r - 1 = 0) by omega)]
    exact ih (k + 1) (r - 1) (by omega)

/-- C10: with retries at least 1 the resolution retry loop performs at most
retries getaddrinfo attempts and terminates, returning the first successful
result or re-raising the failure of the last attempt; with retries at most 0
and a persistently failing resolver it never terminates, the counter being
decremented before the zero test. -/
theorem retried_getaddrinfo_behaviour {α : Type} (oracle : Nat → Except String α)
    (R : Int) :
    (1 ≤ R → gai_run oracle 0 R R.toNat = some (first_success_or_last oracle 0 R.toNat)) ∧
    (R ≤ 0 → (∀ i, ∃ e, oracle i = .error e) →
      ∀ fuel, gai_run oracle 0 R fuel = none) := by
  constructor
  · intro hR
    have h := gai_run_eq oracle R.toNat 0 R.toNat (by omega) (le_refl _)
    rwa [Int.toNat_of_nonneg (by omega)] at h
  · intro hR hfail fuel
    exact gai_run_diverges oracle hfail fuel 0 R hR

/-- Closed instance of the retry-loop theorem: two retries over a resolver
that always fails re-raise the last error after two attempts, and zero
retries spin forever. -/
theorem retried_getaddrinfo_behaviour_witness :
    gai_run (fun _ => (Except.error "gai" : Except String Nat)) 0 2 2 =
      some (.error "gai") ∧
    gai_run (fun _ => (Except.error "gai" : Except String Nat)) 0 0 5 = none := by
  have h2 := retried_getaddrinfo_behaviour (fun _ => (Except.error "gai" : Except String Nat)) 2
  have h0 := retried_getaddrinfo_behaviour (fun _ => (Except.error "gai" : Except String Nat)) 0
  exact ⟨h2.1 (by decide), h0.2 (by decide) (fun i => ⟨"gai", rfl⟩) 5⟩

/-- Response record assembled by Stun.__make_request at the byte level:
ok flag plus the three optional parsed address attributes. -/
structure ParsedResponse where
  ok : Bool
  ext : Option ParsedAddress := none
  src : Option ParsedAddress := none
  changed : Option ParsedAddress := none
deriving DecidableEq, Repr

/-- Attribute walk of Stun.__make_request lines 190-206, fuel-indexed: the
offset and the separately tracked remaining count evolve as in the source
(remaining may overshoot below zero on a lying length field); a truncated
4-byte attribute header raises the struct.error of unpack; a recognised
attribute is parsed from every byte past its header - with the transaction
id only for type 0x0020 - and a parse failure propagates as a raised
exception; later attributes overwrite earlier ones. Each iteration consumes
at least 4 of remaining, so the wrapper fuel is never exhausted. -/
def parse_attrs_go (resp trans_id : List Nat) :
    Nat → Nat → Int → ParsedResponse → Except String ParsedResponse
  | 0, _, _, _ => .error "fuel exhausted"
  | fuel + 1, offset, remaining, acc =>
    if remaining ≤ 0 then .ok acc
    else if resp.length < offset + 4 then .error "unpack requires a buffer of 4 bytes"
    else
      let attr_type := be_nat ((resp.drop offset).take 2)
      let attr_len := be_nat ((resp.drop (offset + 2)).take 2)
      let val := resp.drop (offset + 4)
      let offset' := offset + 4 + attr_len
      let remaining' := remaining - (4 + attr_len)
      if attr_type = 0x0001 then
        match parse_address val [] with
        | .error e => .error e
        | .ok a => parse_attrs_go resp trans_id fuel offset' remaining' { acc with ext := some a }
      else if attr_type = 0x0020 then
        match parse_address val trans_id with
        | .error e => .error e
        | .ok a => parse_attrs_go resp trans_id fuel offset' remaining' { acc with ext := some a }
      else if attr_type = 0x0004 then
        match parse_address val [] with
        | .error e => .error e
        | .ok a => parse_attrs_go resp trans_id fuel offset' remaining' { acc with src := some a }
      else if attr_type = 0x0005 then
        match parse_address val [] with
        | .error e => .error e
        | .ok a => parse_attrs_go resp trans_id fuel offset' remaining' { acc with changed := some a }
      else parse_attrs_go resp trans_id fuel offset' remaining' acc

/-- Attribute walk over a validated response body, started as the source
does with offset 0, remaining = len(resp) and ok=True. -/
def parse_attrs (resp trans_id : List Nat) : Except String ParsedResponse :=
  parse_attrs_go resp trans_id (resp.length + 1) 0 (resp.length : Int) ⟨true, none, none, none⟩

/-- One attempt as seen by the retry loop: given the transaction id and the
attempt index, the (resp, error) pair that Stun.__inner_make_request
returns. -/
def AttemptOracle : Type := List Nat → Nat → List Nat × String

/-- Retry loop of Stun.__make_request lines 179-184: starting from the pair
(empty body, empty error), run attempts in order until one reports an empty
error, recording the transaction id passed to each attempt made. -/
def request_attempt_loop (attempt : AttemptOracle) (trans_id : List Nat) :
    Nat → Nat → List Nat × String → (List Nat × String) × List (List Nat)
  | 0, _, cur => (cur, [])
  | n + 1, i, _ =>
    let r := attempt trans_id i
    if r.2 = "" then (r, [trans_id])
    else
      let rest := request_attempt_loop attempt trans_id n (i + 1) r
      (rest.1, trans_id :: rest.2)

/-- Embedded Stun.__make_request: one transaction id minted from the twelve
random bytes and reused for every attempt, a retry loop of up to retries
attempts, ok=false when the loop ends with a dangling error, and otherwise
the attribute walk over the accepted body, whose failures raise out of the
call. Also returns the transaction ids handed to the attempts. -/
def make_request (retries : Nat) (rand12 : List Nat) (attempt : AttemptOracle) :
    Except String ParsedResponse × List (List Nat) :=
  let trans_id := make_trans_id rand12
  let lp := request_attempt_loop attempt trans_id retries 0 ([], "")
  if lp.1.2 ≠ "" then (.ok ⟨false, none, none, none⟩, lp.2)
  else (parse_attrs lp.1.1 trans_id, lp.2)

theorem request_attempt_loop_ids (attempt : AttemptOracle) (trans_id : List Nat) :
    ∀ (n i : Nat) (cur : List Nat × String),
      (∀ t ∈ (request_attempt_loop attempt trans_id n i cur).2, t = trans_id) ∧
      (request_attempt_loop attempt trans_id n i cur).2.length ≤ n := by
  intro n
  induction n with
  | zero =>
    intro i cur
    refine ⟨?_, ?_⟩
    · intro t ht
      cases ht
    · simp [request_attempt_loop]
  | succ m ih =>
    intro i cur
    unfold request_attempt_loop
    by_cases hr : (attempt trans_id i).2 = ""
    · simp [hr]
    · have h := ih (i + 1) (attempt trans_id i)
      simp only [hr, if_neg, if_false]
      constructor
      · intro t ht
        simp only [List.mem_cons] at ht
        rcases ht with rfl | ht
        · rfl
        · exact h.1 t ht
      · simpa using Nat.succ_le_succ h.2

theorem request_attempt_loop_all_fail (attempt : AttemptOracle) (trans_id : List Nat) :
    ∀ (n i : Nat), 1 ≤ n →
      (∀ j, i ≤ j → j < i + n → (attempt trans_id j).2 ≠ "") →
      ∀ cur : List Nat × String,
        (request_attempt_loop attempt trans_id n i cur).1 = attempt trans_id (i + n - 1) ∧
        (request_attempt_loop attempt trans_id n i cur).1.2 ≠ "" ∧
        (request_attempt_loop attempt trans_id n i cur).2.length = n := by
  intro n
  induction n with
  | zero => intro i h; omega
  | succ m ih =>
    intro i _ hfail cur
    have hi : (attempt trans_id i).2 ≠ "" := hfail i (le_refl i) (by omega)
    unfold request_attempt_loop
    cases m with
    | zero =>
      simp only [hi, if_neg, if_false, request_attempt_loop]
      exact ⟨by simp, by simpa using hi, rfl⟩
    | succ m' =>
      have h := ih (i + 1) (by omega) (fun j hj1 hj2 => hfail j (by omega) (by omega))
        (attempt trans_id i)
      simp only [hi, if_neg, if_false]
      refine ⟨?_, ?_, ?_⟩
      · rw [(h).1]; congr 1; omega
      · exact (h).2.1
      · simpa using (h).2.2

/-- C7 as stated fails: a response accepted by the attempt layer whose body
holds a malformed MAPPED-ADDRESS attribute (length field 8 but only two
value bytes) raises out of the request layer on the first attempt, with no
retry and no ok=false result, even with three attempts configured. -/
theorem make_request_malformed_attr_counterexample :
    (make_request 3 [0, 0, 0, 0, 0, 0, 0, 0, 0, 0, 0, 0]
        (fun _ _ => ([0x00, 0x01, 0x00, 0x08, 0x00, 0x01], ""))).1 =
      .error "Address: data is too short" ∧
    (make_request 3 [0, 0, 0, 0, 0, 0, 0, 0, 0, 0, 0, 0]
        (fun _ _ => ([0x00, 0x01, 0x00, 0x08, 0x00, 0x01], ""))).2.length = 1 := by
  exact ⟨rfl, rfl⟩

/-- C7 amended: every short or malformed response detected by the attempt
layer (short datagram, wrong type, transaction-id mismatch, socket error) is
counted as a failed attempt; each logical request mints one transaction id
and reuses it across up to retries attempts, and when all attempts fail the
logical request returns ok=false with no raise. A malformed attribute inside
an accepted response body, however, raises out of the request layer (caught
only by get_info, which degrades the probe to Error). -/
theorem make_request_retry_amended (retries : Nat) (rand12 : List Nat)
    (attempt : AttemptOracle) :
    (∀ t ∈ (make_request retries rand12 attempt).2, t = make_trans_id rand12) ∧
    (make_request retries rand12 attempt).2.length ≤ retries ∧
    (1 ≤ retries →
      (∀ i, i < retries → (attempt (make_trans_id rand12) i).2 ≠ "") →
      (make_request retries rand12 attempt).1 = .ok ⟨false, none, none, none⟩ ∧
      (make_request retries rand12 attempt).2.length = retries) := by
  have hids := request_attempt_loop_ids attempt (make_trans_id rand12) retries 0 ([], "")
  refine ⟨?_, ?_, ?_⟩
  · intro t ht
    unfold make_request at ht
    dsimp only at ht
    split at ht <;> exact hids.1 t ht
  · unfold make_request
    dsimp only
    split <;> exact hids.2
  · intro hret hfail
    have h := request_attempt_loop_all_fail attempt (make_trans_id rand12) retries 0 hret
      (fun j hj1 hj2 => hfail j (by omega)) ([], "")
    unfold make_request
    dsimp only
    rw [if_pos h.2.1]
    exact ⟨rfl, h.2.2⟩

/-- Closed instance of the amended C7 theorem: two attempts that both time
out reuse one transaction id and end in ok=false. -/
theorem make_request_retry_amended_witness :
    (make_request 2 [0, 0, 0, 0, 0, 0, 0, 0, 0, 0, 0, 0]
        (fun _ _ => ([], "recv timeout"))).1 = .ok ⟨false, none, none, none⟩ ∧
    (make_request 2 [0, 0, 0, 0, 0, 0, 0, 0, 0, 0, 0, 0]
        (fun _ _ => ([], "recv timeout"))).2.length = 2 := by
  have h := make_request_retry_amended 2 [0, 0, 0, 0, 0, 0, 0, 0, 0, 0, 0, 0]
    (fun _ _ => ([], "recv timeout"))
  exact h.2.2 (by decide) (fun i _ => by decide)

/-- Python str(...) of a StunNatType member, as dataclasses.asdict leaves
the enum values intact and str renders the member path. -/
def nat_type_str (t : StunNatType) : String :=
  "StunNatType." ++
    match t with
    | .ERROR => "ERROR"
    | .BLOCKED => "BLOCKED"
    | .OPEN_INTERNET => "OPEN_INTERNET"
    | .SYMMETRIC_UDP_FW => "SYMMETRIC_UDP_FW"
    | .FULL_CONE_NAT => "FULL_CONE_NAT"
    | .RESTRICTED_NAT => "RESTRICTED_NAT"
    | .RESTRICTED_PORT_NAT => "RESTRICTED_PORT_NAT"
    | .SYMMETRIC_NAT => "SYMMETRIC_NAT"
    | .CHANGED_ADDR_ERROR => "CHANGED_ADDR_ERROR"

/-- Placeholder dict of Live777Runner.__start_live777_proc lines 181-187:
the synthetic o_stun_server entry followed by every Netcfg field,
stringified. -/
def mk_placeholders (n : Netcfg) : List (String × String) :=
  [("o_stun_server", "--stun-server=" ++ n.stun_ip ++ ":" ++ toString n.stun_port),
   ("nat_type", nat_type_str n.nat_type),
   ("src_ip", n.src_ip),
   ("ext_ip", n.ext_ip),
   ("stun_host", n.stun_host),
   ("stun_ip", n.stun_ip),
   ("stun_port", toString n.stun_port)]

/-- Dict assignment on an association list. -/
def set_assoc (ph : List (String × String)) (k v : String) : List (String × String) :=
  ph.map (fun p => if p.1 = k then (k, v) else p)

/-- Dict lookup on an association list. -/
def lookup_assoc (ph : List (String × String)) (k : String) : Option String :=
  match ph with
  | [] => none
  | p :: rest => if p.1 = k then some p.2 else lookup_assoc rest k

/-- The literal template token carrying only the o_stun_server placeholder. -/
def o_stun_token : String := "\x7bo_stun_server\x7d"

/-- str.format over one token, fuel-driven on characters: each
brace-delimited name is replaced by its mapping; an unknown name or an
unclosed brace gives none (Python raises KeyError and ValueError there);
brace escaping is not used by the templates this models. -/
def py_format_go (ph : List (String × String)) : Nat → List Char → Option (List Char)
  | 0, _ => none
  | _, [] => some []
  | fuel + 1, c :: rest =>
    if c = '\x7b' then
      let name := rest.takeWhile (fun d => d ≠ '\x7d')
      match rest.dropWhile (fun d => d ≠ '\x7d') with
      | [] => none
      | _ :: after =>
        match lookup_assoc ph (String.mk name) with
        | none => none
        | some v =>
          match py_format_go ph fuel after with
          | none => none
          | some out => some (v.data ++ out)
    else
      match py_format_go ph fuel rest with
      | none => none
      | some out => some (c :: out)

/-- str.format of a whole token, with enough fuel for all its characters. -/
def py_format (ph : List (String × String)) (s : String) : Option String :=
  (py_format_go ph (s.data.length + 1) s.data).map String.mk

/-- The argv list comprehension of lines 193-196 of runner.py: format every
token, propagating a formatting failure. -/
def map_format (ph : List (String × String)) : List String → Option (List String)
  | [] => some []
  | t :: rest =>
    match py_format ph t with
    | none => none
    | some s =>
      match map_format ph rest with
      | none => none
      | some out => some (s :: out)

/-- Embedded argv templating of Live777Runner.__start_live777_proc lines
179-196: build the placeholder dict; when ext_ip is empty force the
o_stun_server entry to the empty string and drop every token equal to the
literal o_stun_server token from the template; then substitute every
remaining token. -/
def render_cmd (tmpl : List String) (n : Netcfg) : Option (List String) :=
  let ph0 := mk_placeholders n
  let ph := if n.ext_ip = "" then set_assoc ph0 "o_stun_server" "" else ph0
  let cmd := if n.ext_ip = "" then tmpl.filter (fun t => t ≠ o_stun_token) else tmpl
  map_format ph cmd

theorem takeWhile_append_stop (p : Char → Bool) (y : Char) (ys : List Char)
    (hy : p y = false) :
    ∀ xs : List Char, (∀ c ∈ xs, p c = true) →
      (xs ++ y :: ys).takeWhile p = xs ∧ (xs ++ y :: ys).dropWhile p = y :: ys := by
  intro xs
  induction xs with
  | nil => intro _; simp [List.takeWhile, List.dropWhile, hy]
  | cons a as ih =>
    intro hall
    have ha : p a = true := hall a (by simp)
    have h := ih (fun c hc => hall c (by simp [hc]))
    simp [List.takeWhile, List.dropWhile, ha, h.1, h.2]

theorem py_format_token (ph : List (String × String)) (name : List Char) (v : String)
    (hname : ∀ c ∈ name, c ≠ '\x7d')
    (hlk : lookup_assoc ph (String.mk name) = some v) :
    py_format ph (String.mk ('\x7b' :: (name ++ ['\x7d']))) = some v := by
  have hw := takeWhile_append_stop (fun d => d ≠ '\x7d') '\x7d' [] (by simp) name
    (fun c hc => by simpa using hname c hc)
  simp only [ne_eq, decide_not] at hw
  simp [py_format, py_format_go, hw.1, hw.2, hlk, List.append_nil]

theorem map_format_mem (ph : List (String × String)) :
    ∀ (xs : List String) (ys : List String), map_format ph xs = some ys →
      ∀ y ∈ ys, ∃ x ∈ xs, py_format ph x = some y := by
  intro xs
  induction xs with
  | nil =>
    intro ys h y hy
    unfold map_format at h
    cases h
    cases hy
  | cons a as ih =>
    intro ys h y hy
    unfold map_format at h
    cases hf : py_format ph a with
    | none => rw [hf] at h; cases h
    | some s =>
      rw [hf] at h
      dsimp only at h
      cases hm : map_format ph as with
      | none => rw [hm] at h; cases h
      | some out =>
        rw [hm] at h
        dsimp only at h
        cases h
        simp only [List.mem_cons] at hy
        rcases hy with rfl | hy
        · exact ⟨a, by simp, hf⟩
        · obtain ⟨x, hx, hpx⟩ := ih out hm y hy
          exact ⟨x, by simp [hx], hpx⟩

/-- C8: with empty ext_ip the renderer forces the o_stun_server placeholder
to the empty string and removes every token equal to the literal
o_stun_server token from the template before substitution, so every rendered
token comes from some other template token - no empty token and no
stun-server option is left behind by the placeholder; with non-empty ext_ip
the placeholder renders as --stun-server=stun_ip:stun_port and every Netcfg
field is available, stringified, under its own braced name. -/
theorem render_cmd_stun_server (tmpl : List String) (n : Netcfg) :
    (n.ext_ip = "" →
      render_cmd tmpl n =
        map_format (set_assoc (mk_placeholders n) "o_stun_server" "")
          (tmpl.filter (fun t => t ≠ o_stun_token)) ∧
      py_format (set_assoc (mk_placeholders n) "o_stun_server" "") o_stun_token = some "" ∧
      (∀ out, render_cmd tmpl n = some out →
        ∀ s ∈ out, ∃ t ∈ tmpl, t ≠ o_stun_token ∧
          py_format (set_assoc (mk_placeholders n) "o_stun_server" "") t = some s)) ∧
    (n.ext_ip ≠ "" →
      render_cmd tmpl n = map_format (mk_placeholders n) tmpl ∧
      py_format (mk_placeholders n) o_stun_token =
        some ("--stun-server=" ++ n.stun_ip ++ ":" ++ toString n.stun_port) ∧
      py_format (mk_placeholders n) "\x7bnat_type\x7d" = some (nat_type_str n.nat_type) ∧
      py_format (mk_placeholders n) "\x7bsrc_ip\x7d" = some n.src_ip ∧
      py_format (mk_placeholders n) "\x7bext_ip\x7d" = some n.ext_ip ∧
      py_format (mk_placeholders n) "\x7bstun_host\x7d" = some n.stun_host ∧
      py_format (mk_placeholders n) "\x7bstun_ip\x7d" = some n.stun_ip ∧
      py_format (mk_placeholders n) "\x7bstun_port\x7d" = some (toString n.stun_port)) := by
  constructor
  · intro h
    have h1 : render_cmd tmpl n =
        map_format (set_assoc (mk_placeholders n) "o_stun_server" "")
          (tmpl.filter (fun t => t ≠ o_stun_token)) := by
      simp [render_cmd, h]
    refine ⟨h1, ?_, ?_⟩
    · exact py_format_token _ ("o_stun_server".data) "" (by decide) rfl
    · intro out hout s hs
      rw [h1] at hout
      obtain ⟨t, ht, hpt⟩ := map_format_mem _ _ out hout s hs
      rw [List.mem_filter] at ht
      exact ⟨t, ht.1, by simpa using ht.2, hpt⟩
  · intro h
    refine ⟨by simp [render_cmd, h], ?_, ?_, ?_, ?_, ?_, ?_, ?_⟩
    · exact py_format_token _ ("o_stun_server".data) _ (by decide) rfl
    · exact py_format_token _ ("nat_type".data) _ (by decide) rfl
    · exact py_format_token _ ("src_ip".data) _ (by decide) rfl
    · exact py_format_token _ ("ext_ip".data) _ (by decide) rfl
    · exact py_format_token _ ("stun_host".data) _ (by decide) rfl
    · exact py_format_token _ ("stun_ip".data) _ (by decide) rfl
    · exact py_format_token _ ("stun_port".data) _ (by decide) rfl

/-- Closed instance of the templating theorem: with empty ext_ip the
o_stun_server token vanishes from the rendered argv; with a non-empty one
the placeholder renders the stun-server option. -/
theorem render_cmd_stun_server_witness :
    render_cmd ["live777", o_stun_token] ⟨.ERROR, "0.0.0.0", "", "s.host", "1.2.3.4", 3478⟩ =
      some ["live777"] ∧
    py_format (mk_placeholders ⟨.ERROR, "0.0.0.0", "5.6.7.8", "s.host", "1.2.3.4", 3478⟩)
        o_stun_token = some "--stun-server=1.2.3.4:3478" := by
  have hA := (render_cmd_stun_server ["live777", o_stun_token]
    ⟨.ERROR, "0.0.0.0", "", "s.host", "1.2.3.4", 3478⟩).1 rfl
  have hB := (render_cmd_stun_server ["live777", o_stun_token]
    ⟨.ERROR, "0.0.0.0", "5.6.7.8", "s.host", "1.2.3.4", 3478⟩).2 (by decide)
  exact ⟨hA.1.trans (by decide), hB.2.1.trans (by decide)⟩

end KvmdLive777
